import Mathlib

/-!
Verification of the decision engine of the `dota2-scripts` repository.

The Rust sources are shallowly embedded: pure decision functions become Lean
functions over explicit state records, `std::time::Instant` values become
natural-number timestamps in milliseconds, and functions with side effects
(key presses, mouse drags) are modelled as functions returning the list of
emitted input events next to the updated state.
-/

namespace DotaScripts

/-- ASCII lowercasing, mirroring Rust `char::to_ascii_lowercase`:
uppercase ASCII letters get 32 added to their code point, everything else
is returned unchanged. -/
def toAsciiLower (c : Char) : Char :=
  if 'A' ≤ c ∧ c ≤ 'Z' then Char.ofNat (c.toNat + 32) else c

/-! ## Power Treads stat cycle (`src/actions/power_treads.rs`) -/

/-- The three Power Treads stats, `Stat` in `power_treads.rs`. -/
inductive Stat where
  | str
  | int
  | agi
deriving DecidableEq, Repr, Fintype

/-- `Stat::next`: the fixed rotation STR → INT → AGI → STR. -/
def Stat.next : Stat → Stat
  | .str => .int
  | .int => .agi
  | .agi => .str

/-- `Stat::presses_to_reach`: number of forward presses from one stat to
another, by the explicit case table of the source. -/
def Stat.pressesToReach (f t : Stat) : Nat :=
  if f = t then 0
  else
    match f, t with
    | .str, .int => 1
    | .str, .agi => 2
    | .int, .agi => 1
    | .int, .str => 2
    | .agi, .str => 1
    | .agi, .int => 2
    | _, _ => 0

/-- `k`-fold application of `Stat.next`. -/
def Stat.nextPow : Nat → Stat → Stat
  | 0, s => s
  | k + 1, s => Stat.nextPow k s.next

/-! ## Soul Ring trigger (`src/actions/soul_ring.rs`) -/

/-- `SoulRingConfig` from `config/settings.rs` (fields used by the decision
logic). -/
structure SoulRingConfig where
  enabled : Bool
  minManaPercent : Nat
  minHealthPercent : Nat
  delayBeforeAbilityMs : Nat
  triggerCooldownMs : Nat
  abilityKeys : List String
  interceptItemKeys : Bool

/-- `KeybindingsConfig` from `config/settings.rs` (inventory slot keys). -/
structure KeybindingsConfig where
  slot0 : Char
  slot1 : Char
  slot2 : Char
  slot3 : Char
  slot4 : Char
  slot5 : Char
  neutral0 : Char

/-- The slice of `Settings` consulted by the triggers verified here. -/
structure Settings where
  soulRing : SoulRingConfig
  keybindings : KeybindingsConfig

/-- `Settings::get_key_for_slot`. -/
def Settings.getKeyForSlot (s : Settings) (slot : String) : Option Char :=
  if slot = "slot0" then some s.keybindings.slot0
  else if slot = "slot1" then some s.keybindings.slot1
  else if slot = "slot2" then some s.keybindings.slot2
  else if slot = "slot3" then some s.keybindings.slot3
  else if slot = "slot4" then some s.keybindings.slot4
  else if slot = "slot5" then some s.keybindings.slot5
  else if slot = "neutral0" then some s.keybindings.neutral0
  else none

/-- `SOUL_RING_SKIP_ITEMS`: items that never trigger Soul Ring. -/
def soulRingSkipItems : List String :=
  ["item_blink", "item_overwhelming_blink", "item_swift_blink",
   "item_arcane_blink", "item_phase_boots", "item_travel_boots",
   "item_travel_boots_2", "item_bottle", "item_tpscroll", "item_flask",
   "item_clarity", "item_enchanted_mango", "item_faerie_fire", "item_tango",
   "item_tango_single", "item_smoke_of_deceit", "item_dust",
   "item_ward_observer", "item_ward_sentry", "item_tome_of_knowledge",
   "item_cheese", "item_armlet", "item_power_treads", "item_soul_ring",
   "item_shadow_amulet", "item_satanic", "item_hand_of_midas",
   "item_guardian_greaves"]

/-- `SoulRingState`: the lock-protected singleton state of the Soul Ring
trigger.  `Instant` timestamps are milliseconds (`Nat`); the per-slot item
cache `slot_items : HashMap<char, String>` is an association list. -/
structure SoulRingState where
  available : Bool
  slotKey : Option Char
  canCast : Bool
  heroManaPercent : Nat
  heroHealthPercent : Nat
  heroAlive : Bool
  lastTriggered : Option Nat
  slotItems : List (Char × String)

/-- `SoulRingState::should_trigger`, with `now` the current time in ms
(`last.elapsed()` becomes `now - last`). -/
def SoulRingState.shouldTrigger (s : SoulRingState) (settings : Settings)
    (now : Nat) : Bool :=
  if !settings.soulRing.enabled then false
  else if !s.available || !s.canCast || s.slotKey.isNone then false
  else if !s.heroAlive then false
  else if settings.soulRing.minManaPercent < 100 ∧
      s.heroManaPercent ≥ settings.soulRing.minManaPercent then false
  else if s.heroHealthPercent ≤ settings.soulRing.minHealthPercent then false
  else
    match s.lastTriggered with
    | some last =>
        if now - last < settings.soulRing.triggerCooldownMs then false
        else true
    | none => true

/-- `SoulRingState::get_item_for_key`: look the lowercased key up in the
slot-item cache. -/
def SoulRingState.getItemForKey (s : SoulRingState) (keyChar : Char) :
    Option String :=
  s.slotItems.lookup (toAsciiLower keyChar)

/-- `SoulRingState::should_skip_item`. -/
def SoulRingState.shouldSkipItem (_s : SoulRingState) (itemName : String) :
    Bool :=
  soulRingSkipItems.contains itemName

/-- `SoulRingState::is_item_key`: whether a pressed key is an item-slot key
that should trigger Soul Ring. -/
def SoulRingState.isItemKey (s : SoulRingState) (keyChar : Char)
    (settings : Settings) : Bool :=
  if !settings.soulRing.interceptItemKeys then false
  else
    let itemKeys := [settings.keybindings.slot0, settings.keybindings.slot1,
      settings.keybindings.slot2, settings.keybindings.slot3,
      settings.keybindings.slot4, settings.keybindings.slot5]
    let keyLower := toAsciiLower keyChar
    -- never trigger on Soul Ring's own key (would cause an infinite loop)
    if (match s.slotKey with
        | some srKey => keyLower == toAsciiLower srKey
        | none => false : Bool) then false
    else if !(itemKeys.any fun k => toAsciiLower k = keyLower) then false
    else
      match s.getItemForKey keyChar with
      | some itemName =>
          if s.shouldSkipItem itemName then false else true
      | none => true

/-! ## Armlet toggle (`src/actions/common.rs`) -/

/-- `ArmletConfig` from `common.rs`. -/
structure ArmletConfig where
  toggleThreshold : Nat
  predictiveOffset : Nat
  toggleCooldownMs : Nat

/-- The two `lazy_static` cells `ARMLET_LAST_TOGGLE` and
`ARMLET_CRITICAL_HP`, gathered into one state record. -/
structure ArmletState where
  lastToggle : Option Nat
  criticalHp : Option Nat

/-- Both cells start out as `None`. -/
def ArmletState.initial : ArmletState :=
  { lastToggle := none, criticalHp := none }

/-- The slice of `GsiWebhookEvent` read by `armlet_toggle`:
inventory slots as (slot name, item name) pairs and the hero vitals. -/
structure GEvent where
  items : List (String × String)
  heroHealth : Nat
  heroAlive : Bool
  heroStunned : Bool

/-- Result of one `armlet_toggle` evaluation: the updated state, the key
presses emitted, and whether the critical-override branch fired (ghost
instrumentation used to name that branch in theorems). -/
structure ArmletResult where
  state : ArmletState
  presses : List Char
  overrideFired : Bool

/-- The part of `armlet_toggle` below the critical-override check:
threshold test, stun check, cooldown gate, and the safe-HP reset of the
critical tracker. -/
def armletToggleMain (ev : GEvent) (cfg : ArmletConfig) (st : ArmletState)
    (now : Nat) (key : Char) : ArmletResult :=
  if ev.heroHealth < cfg.toggleThreshold + cfg.predictiveOffset then
    if ev.heroStunned then { state := st, presses := [], overrideFired := false }
    else
      let canToggle :=
        match st.lastToggle with
        | some lastTime => now - lastTime ≥ cfg.toggleCooldownMs
        | none => true
      if !canToggle then { state := st, presses := [], overrideFired := false }
      else
        { state := { st with lastToggle := some now },
          presses := [key, key], overrideFired := false }
  else
    -- HP recovered: reset the critical tracker
    { state := { st with criticalHp := none }, presses := [],
      overrideFired := false }

/-- `armlet_toggle`: find the armlet slot and its key, require the hero
alive, run the critical-override check, then the normal toggle logic.
(`try_lock` contention degrades to a no-op and is not modelled: the
single-thread interleaving always acquires.) -/
def armletToggle (ev : GEvent) (settings : Settings) (cfg : ArmletConfig)
    (st : ArmletState) (now : Nat) : ArmletResult :=
  match (ev.items.find? fun p => p.2 == "item_armlet").map (·.1) with
  | none => { state := st, presses := [], overrideFired := false }
  | some armletSlot =>
    match settings.getKeyForSlot armletSlot with
    | none => { state := st, presses := [], overrideFired := false }
    | some key =>
      if !ev.heroAlive then { state := st, presses := [], overrideFired := false }
      else
        match st.criticalHp with
        | some lastCritical =>
          if ev.heroHealth < cfg.toggleThreshold / 2 ∧
              ev.heroHealth ≤ lastCritical then
            -- force toggle regardless of cooldown, then reset the tracker
            { state := { criticalHp := none, lastToggle := some now },
              presses := [key, key], overrideFired := true }
          else armletToggleMain ev cfg st now key
        | none => armletToggleMain ev cfg st now key

/-- Fold `armlet_toggle` over a sequence of (event, timestamp) evaluations,
reporting whether the critical-override branch ever fired. -/
def armletRunFired (settings : Settings) (cfg : ArmletConfig) :
    ArmletState → List (GEvent × Nat) → Bool
  | _, [] => false
  | st, (ev, now) :: rest =>
      let r := armletToggle ev settings cfg st now
      r.overrideFired || armletRunFired settings cfg r.state rest

/-! ## Danger detector (`src/actions/danger_detector.rs`) -/

/-- `DangerDetectionConfig` (the fields read by `update`). -/
structure DangerConfig where
  enabled : Bool
  hpThresholdPercent : Nat
  rapidLossHp : Nat
  timeWindowMs : Nat
  clearDelaySeconds : Nat

/-- `HpTracker`. -/
structure HpTracker where
  lastHp : Option Nat
  lastHpPercent : Option Nat
  lastUpdate : Option Nat
  dangerDetected : Bool
  dangerStartTime : Option Nat

/-- `HpTracker::default()`. -/
def HpTracker.initial : HpTracker :=
  { lastHp := none, lastHpPercent := none, lastUpdate := none,
    dangerDetected := false, dangerStartTime := none }

/-- The detection predicate of `update`:
rapid HP loss inside the time window, or low HP percent with any HP loss. -/
def dangerSignal (cfg : DangerConfig) (lastHp hp hpPercent : Nat)
    (timeDeltaMs : Nat) : Bool :=
  let hpDelta : Int := (lastHp : Int) - (hp : Int)
  (hpDelta > (cfg.rapidLossHp : Int) && timeDeltaMs < cfg.timeWindowMs) ||
    (hpPercent < cfg.hpThresholdPercent && hpDelta > 0)

/-- `danger_detector::update` on one snapshot: returns the updated tracker
and the reported in-danger flag.  `now` is the evaluation time in ms. -/
def dangerUpdate (tr : HpTracker) (cfg : DangerConfig) (alive : Bool)
    (hp hpPercent : Nat) (now : Nat) : HpTracker × Bool :=
  if !cfg.enabled then (tr, false)
  else if !alive then (HpTracker.initial, false)
  else
    match tr.lastHp with
    | none =>
        ({ tr with lastHp := some hp, lastHpPercent := some hpPercent,
                   lastUpdate := some now }, false)
    | some lastHp0 =>
        let timeDeltaMs := now - tr.lastUpdate.getD 0
        let inDanger := dangerSignal cfg lastHp0 hp hpPercent timeDeltaMs
        let tr1 :=
          if inDanger && !tr.dangerDetected then
            { tr with dangerDetected := true, dangerStartTime := some now }
          else if !inDanger && tr.dangerDetected then
            match tr.dangerStartTime with
            | some dangerStart =>
                if (now - dangerStart) / 1000 ≥ cfg.clearDelaySeconds then
                  { tr with dangerDetected := false, dangerStartTime := none }
                else tr
            | none => tr
          else tr
        let tr2 := { tr1 with lastHp := some hp, lastHpPercent := some hpPercent,
                              lastUpdate := some now }
        (tr2, tr2.dangerDetected)

/-! ## Bottle optimization (`src/actions/bottle_optimization.rs`) -/

/-- `ScreenPosition` (coordinates pass through untouched by the logic
verified here). -/
structure ScreenPos where
  x : Int
  y : Int
deriving DecidableEq, Repr

/-- `ItemSlot` from `bottle_optimization.rs`. -/
structure BItemSlot where
  slotIndex : Nat
  itemName : String
  screenPos : ScreenPos
deriving DecidableEq, Repr

/-- The fields of the bottle-optimization config consulted by
`should_trigger` and `execute_bottle_optimization`. -/
structure BottleConfig where
  enabled : Bool
  maxGameTimeSeconds : Int
  triggerCooldownMs : Nat
  restoreMousePosition : Bool

/-- `BottleOptimizationState`. -/
structure BottleState where
  bottleAvailable : Bool
  bottleSlotIndex : Option Nat
  bottleSlotKey : Option Char
  bottleCanCast : Bool
  bottleCharges : Nat
  gameTime : Int
  heroAlive : Bool
  statItems : List BItemSlot
  emptyStashSlots : List BItemSlot
  lastTriggered : Option Nat
  inProgress : Bool

/-- `BottleOptimizationState::should_trigger`. -/
def BottleState.shouldTrigger (s : BottleState) (cfg : BottleConfig)
    (now : Nat) : Bool :=
  if !cfg.enabled then false
  else if s.inProgress then false
  else if !s.heroAlive then false
  else if !s.bottleAvailable || !s.bottleCanCast || s.bottleCharges == 0 then
    false
  else if s.gameTime ≥ cfg.maxGameTimeSeconds then false
  else if s.statItems.isEmpty then false
  else if s.emptyStashSlots.isEmpty then false
  else
    match s.lastTriggered with
    | some last =>
        if now - last < cfg.triggerCooldownMs then false else true
    | none => true

/-- Observable events of `execute_bottle_optimization`, in emission order. -/
inductive BEvent where
  | guardOn
  | markTriggered
  | dragToStash (item stash : BItemSlot)
  | dragBack (item stash : BItemSlot)
  | useBottle (key : Char)
  | restoreCursor
  | guardOff
deriving DecidableEq, Repr

/-- The batches drained by the `while !items_remaining.is_empty()` loop:
each batch takes `min remaining k` items (`k` = number of empty stash
slots).  The fuel argument bounds the iteration count; the caller passes
the item count, which suffices because the loop is entered only with
`k ≥ 1`, so every batch drains at least one item. -/
def batchChunks {α : Type} (k : Nat) : Nat → List α → List (List α)
  | 0, _ => []
  | _, [] => []
  | fuel + 1, a :: items =>
      let c := min (a :: items).length k
      (a :: items).take c :: batchChunks k fuel ((a :: items).drop c)

/-- Events of one batch: drag every batch item to its stash slot (paired
by position, `batch[i]` with `empty_stash_slots[i]`), then drag all back. -/
def chunkEvents (chunk empties : List BItemSlot) : List BEvent :=
  ((chunk.zip empties).map fun p => BEvent.dragToStash p.1 p.2) ++
    ((chunk.zip empties).map fun p => BEvent.dragBack p.1 p.2)

/-- `execute_bottle_optimization` as an event trace: set the in-progress
guard and mark the trigger; if `min (#stat items) (#empty slots) = 0`,
release the guard and return early; otherwise process all batches, use the
bottle, optionally restore the cursor, and release the guard. -/
def execBottleEvents (statItems emptyStashSlots : List BItemSlot)
    (bottleKey : Char) (restoreMouse : Bool) : List BEvent :=
  let batchSize := min statItems.length emptyStashSlots.length
  if batchSize = 0 then [.guardOn, .markTriggered, .guardOff]
  else
    [.guardOn, .markTriggered] ++
      ((batchChunks emptyStashSlots.length statItems.length statItems).map
        fun chunk => chunkEvents chunk emptyStashSlots).flatten ++
      [.useBottle bottleKey] ++
      (if restoreMouse then [.restoreCursor] else []) ++
      [.guardOff]

/-- Spec-form batch-size plan, from the claim's words: starting from `n`
remaining items with `k` empty destination slots, each batch has size
`min remaining k`. -/
def sizePlan (k : Nat) : Nat → Nat → List Nat
  | 0, _ => []
  | _, 0 => []
  | fuel + 1, n + 1 => min (n + 1) k :: sizePlan k fuel (n + 1 - min (n + 1) k)

/-- Guard events of the trace. -/
def BEvent.isGuard : BEvent → Bool
  | .guardOn => true
  | .guardOff => true
  | _ => false

/-- Drag events of the trace. -/
def BEvent.isDrag : BEvent → Bool
  | .dragToStash _ _ => true
  | .dragBack _ _ => true
  | _ => false

/-- Bottle-use events of the trace. -/
def BEvent.isUse : BEvent → Bool
  | .useBottle _ => true
  | _ => false

/-! ## Tinker fast-poll combo loop (`src/actions/heroes/tinker.rs`) -/

/-- `TinkerSettingsSnapshot`. -/
structure TinkerSnapshot where
  enabled : Bool
  comboPriority : List String
  laserKey : Char
  matrixKey : Char
  warpFlareKey : Char
  rearmKey : Char
  autoMatrixEnabled : Bool
  autoMatrixHpThreshold : Nat
  rearmRetryOnInterrupt : Bool

/-- `CachedGsiData`: item entries are (name, slot key, ready, needs click). -/
structure CachedGsi where
  lastUpdate : Nat
  isAlive : Bool
  laserReady : Bool
  laserCooldown : Nat
  warpFlareReady : Bool
  matrixReady : Bool
  items : List (String × Char × Bool × Bool)
  healthPercent : Nat
  snapshot : TinkerSnapshot

/-- `TinkerState`. -/
structure TinkerState where
  comboActive : Bool
  rearmStarted : Option Nat
  laserCdBeforeRearm : Nat
  awaitingRearmVerify : Bool
  lastCast : Option Nat
  loopRunning : Bool
  rearmCompletedAt : Option Nat

/-- Input events emitted by one combo step. -/
inductive TAction where
  | soulRingCast (key : Char)
  | pressKey (key : Char)
  | leftClick
deriving DecidableEq, Repr

/-- The priority scan of `combo_step`: first ready entry of
`combo_priority` wins ("laser", "warp_flare", or an `item_` name looked up
in the cached item list). -/
def castFromPriority (cached : CachedGsi) : List String → Option (List TAction)
  | [] => none
  | p :: rest =>
    if p = "laser" then
      if cached.laserReady then some [.soulRingCast cached.snapshot.laserKey]
      else castFromPriority cached rest
    else if p = "warp_flare" then
      if cached.warpFlareReady then
        some [.soulRingCast cached.snapshot.warpFlareKey]
      else castFromPriority cached rest
    else if p.startsWith "item_" then
      match cached.items.find? fun q => q.1 == p && q.2.2.1 with
      | some q =>
          some ([.pressKey q.2.1] ++ if q.2.2.2 then [.leftClick] else [])
      | none => castFromPriority cached rest
    else castFromPriority cached rest

/-- The tail of `combo_step`: the priority cast scan, and the Rearm
issue when no priority entry is ready and both abilities are on cooldown. -/
def comboCastLoop (cached : CachedGsi) (st : TinkerState) (now : Nat) :
    TinkerState × List TAction :=
  match castFromPriority cached cached.snapshot.comboPriority with
  | some acts => ({ st with lastCast := some now }, acts)
  | none =>
    if !cached.laserReady && !cached.warpFlareReady then
      ({ st with laserCdBeforeRearm := cached.laserCooldown,
                 rearmStarted := some now, awaitingRearmVerify := true,
                 lastCast := some now },
       [.pressKey cached.snapshot.rearmKey])
    else (st, [])

/-- `combo_step` after the post-rearm buffer check: the rearm-verification
sub-machine (conclude only once `elapsed > 1550` ms: retry on interrupt if
configured, otherwise clear the awaiting flag and start the GSI buffer),
falling through to the priority cast scan when not awaiting. -/
def comboStepVerify (cached : CachedGsi) (st : TinkerState) (now : Nat) :
    TinkerState × List TAction :=
  if st.awaitingRearmVerify then
    match st.rearmStarted with
    | some rearmStart =>
      if now - rearmStart > 1550 then
        if cached.laserCooldown > 0 && st.laserCdBeforeRearm > 0 then
          -- Laser still on cooldown: Rearm was interrupted
          if cached.snapshot.rearmRetryOnInterrupt then
            ({ st with rearmStarted := some now, lastCast := some now },
             [.pressKey cached.snapshot.rearmKey])
          else (st, [])
        else
          ({ st with awaitingRearmVerify := false, rearmStarted := none,
                     rearmCompletedAt := some now }, [])
      else (st, [])  -- still waiting for Rearm to complete
    | none => comboCastLoop cached st now
  else comboCastLoop cached st now

/-- `TinkerScript::combo_step`: one tick of the fast-poll loop.  Guards in
order: cached data present, cache at most 2 s old, hero alive, feature
enabled, minimum 80 ms between casts, 500 ms buffer after a completed
Rearm; then the verification sub-machine and the cast scan. -/
def comboStep (cache : Option CachedGsi) (st : TinkerState) (now : Nat) :
    TinkerState × List TAction :=
  match cache with
  | none => (st, [])
  | some cached =>
    if (now - cached.lastUpdate) / 1000 > 2 then (st, [])
    else if !cached.isAlive then (st, [])
    else if !cached.snapshot.enabled then (st, [])
    else if (match st.lastCast with
             | some last => now - last < 80
             | none => false : Bool) then (st, [])
    else
      match st.rearmCompletedAt with
      | some rearmDone =>
        if now - rearmDone < 500 then (st, [])
        else comboStepVerify cached { st with rearmCompletedAt := none } now
      | none => comboStepVerify cached st now

/-! ## Largo rhythm scheduler (`src/actions/heroes/largo.rs`) -/

/-- The beat-deadline offset computed by `start_beat_thread`:
`beat_interval_ms * beat_count` plus, when the correction period is
nonzero, `beat_correction_ms` for every completed correction cycle; the
sum is clamped at zero (`total_ms.max(0) as u64`). -/
def beatTotalMs (intervalMs : Nat) (correctionMs : Int) (everyN : Nat)
    (beatCount : Nat) : Nat :=
  (if 0 < everyN then
      (intervalMs : Int) * (beatCount : Int) +
        correctionMs * ((beatCount / everyN : Nat) : Int)
    else (intervalMs : Int) * (beatCount : Int)).toNat

/-- The absolute deadline of beat `beatCount`:
`expected_beat_time = start_time + Duration::from_millis(total_ms)`. -/
def beatDeadline (anchor intervalMs : Nat) (correctionMs : Int)
    (everyN beatCount : Nat) : Nat :=
  anchor + beatTotalMs intervalMs correctionMs everyN beatCount

/-- The claim's formula for the deadline of beat `N`:
`anchor + beat_interval * N + beat_correction * floor(N / correction_every_n)`,
clamped at no earlier than the anchor.  (With `Nat` division,
`N / 0 = 0`, which coincides with the code's disabled-correction branch.) -/
def beatDeadlineSpec (anchor intervalMs : Nat) (correctionMs : Int)
    (everyN beatCount : Nat) : Nat :=
  max anchor
    ((anchor : Int) + (intervalMs : Int) * (beatCount : Int) +
      correctionMs * ((beatCount / everyN : Nat) : Int)).toNat

/-! ## Theorems -/

/-- Claim C9: in the 3-element stat cycle, `presses_to_reach x x = 0`;
`presses_to_reach a b + presses_to_reach b a = 3` for distinct `a`, `b`;
and `presses_to_reach a b` is the least `k < 3` with `next^k a = b`. -/
theorem stat_cycle_pressesToReach :
    (∀ x : Stat, Stat.pressesToReach x x = 0) ∧
    (∀ a b : Stat, a ≠ b →
      Stat.pressesToReach a b + Stat.pressesToReach b a = 3) ∧
    (∀ a b : Stat, Stat.pressesToReach a b < 3 ∧
      Stat.nextPow (Stat.pressesToReach a b) a = b ∧
      ∀ j : Nat, j < Stat.pressesToReach a b → Stat.nextPow j a ≠ b) := by
  decide

/-- Claim C9 witness: the theorem instantiated at `Str`, `Int`. -/
theorem stat_cycle_pressesToReach_witness :
    Stat.str ≠ Stat.int ∧
    Stat.pressesToReach .str .int + Stat.pressesToReach .int .str = 3 :=
  ⟨by decide, stat_cycle_pressesToReach.2.1 .str .int (by decide)⟩

/-- Claim C10: `is_item_key` returns `false` whenever the pressed key
equals Soul Ring's own slot key, compared case-insensitively, so the
item-key interception path never reacts to the Soul Ring key itself. -/
theorem soulRing_own_key_not_item_key :
    ∀ (s : SoulRingState) (settings : Settings) (key srKey : Char),
      s.slotKey = some srKey → toAsciiLower key = toAsciiLower srKey →
      s.isItemKey key settings = false := by
  intro s settings key srKey hslot hlow
  simp only [SoulRingState.isItemKey, hslot, hlow]
  simp

/-- Claim C10 witness: a concrete state whose Soul Ring sits on key `r`;
pressing `R` is not treated as an item key. -/
theorem soulRing_own_key_not_item_key_witness :
    ({ available := true, slotKey := some 'r', canCast := true,
       heroManaPercent := 10, heroHealthPercent := 90, heroAlive := true,
       lastTriggered := none, slotItems := [] } : SoulRingState).slotKey
        = some 'r' ∧
    SoulRingState.isItemKey
      { available := true, slotKey := some 'r', canCast := true,
        heroManaPercent := 10, heroHealthPercent := 90, heroAlive := true,
        lastTriggered := none, slotItems := [] } 'R'
      { soulRing :=
          { enabled := true, minManaPercent := 50, minHealthPercent := 20,
            delayBeforeAbilityMs := 150, triggerCooldownMs := 1000,
            abilityKeys := ["q", "w"], interceptItemKeys := true },
        keybindings := ⟨'z', 'x', 'c', 'v', 'b', 'r', '0'⟩ } = false :=
  ⟨rfl,
    soulRing_own_key_not_item_key _ _ 'R' 'r' rfl (by decide)⟩

/-- Claim C1: once a resource-gated trigger has fired and recorded its
timestamp, no second firing occurs while the elapsed time is below the
configured cooldown: Soul Ring's `should_trigger` returns `false`, and the
armlet toggle presses nothing unless the documented critical-override
branch fires. -/
theorem cooldown_lockout_no_refire :
    (∀ (s : SoulRingState) (settings : Settings) (now t : Nat),
      s.lastTriggered = some t →
      now - t < settings.soulRing.triggerCooldownMs →
      s.shouldTrigger settings now = false) ∧
    (∀ (ev : GEvent) (settings : Settings) (cfg : ArmletConfig)
        (st : ArmletState) (now t : Nat),
      st.lastToggle = some t → now - t < cfg.toggleCooldownMs →
      (armletToggle ev settings cfg st now).overrideFired = false →
      (armletToggle ev settings cfg st now).presses = []) := by
  constructor
  · intro s settings now t hlast hcd
    simp only [SoulRingState.shouldTrigger, hlast]
    split_ifs with h1 h2 h3 h4 h5 <;> simp_all
  · intro ev settings cfg st now t hlast hcd
    unfold armletToggle armletToggleMain
    simp only [hlast]
    cases hfind : (ev.items.find? fun p => p.2 == "item_armlet").map (·.1) with
    | none => simp [hfind]
    | some slot =>
      simp only [hfind]
      cases hkey : settings.getKeyForSlot slot with
      | none => simp [hkey]
      | some key =>
        simp only [hkey]
        cases halive : ev.heroAlive with
        | false => simp
        | true =>
          cases hcrit : st.criticalHp with
          | none => simp only [hcrit]; split_ifs <;> simp_all
          | some lastCritical => simp only [hcrit]; split_ifs <;> simp_all

/-- Claim C1 witness: concrete in-cooldown evaluations for both triggers
(each fired 100 ms ago with a 1000 ms cooldown). -/
theorem cooldown_lockout_no_refire_witness :
    (({ available := true, slotKey := some 'z', canCast := true,
        heroManaPercent := 10, heroHealthPercent := 90, heroAlive := true,
        lastTriggered := some 500, slotItems := [] } : SoulRingState).lastTriggered
      = some 500 ∧
     (600 : Nat) - 500 < (1000 : Nat)) ∧
    SoulRingState.shouldTrigger
      { available := true, slotKey := some 'z', canCast := true,
        heroManaPercent := 10, heroHealthPercent := 90, heroAlive := true,
        lastTriggered := some 500, slotItems := [] }
      { soulRing :=
          { enabled := true, minManaPercent := 50, minHealthPercent := 20,
            delayBeforeAbilityMs := 150, triggerCooldownMs := 1000,
            abilityKeys := ["q"], interceptItemKeys := true },
        keybindings := ⟨'z', 'x', 'c', 'v', 'b', 'n', '0'⟩ } 600 = false ∧
    (armletToggle
      { items := [("slot0", "item_armlet")], heroHealth := 200,
        heroAlive := true, heroStunned := false }
      { soulRing :=
          { enabled := true, minManaPercent := 50, minHealthPercent := 20,
            delayBeforeAbilityMs := 150, triggerCooldownMs := 1000,
            abilityKeys := ["q"], interceptItemKeys := true },
        keybindings := ⟨'z', 'x', 'c', 'v', 'b', 'n', '0'⟩ }
      { toggleThreshold := 320, predictiveOffset := 30,
        toggleCooldownMs := 1000 }
      { lastToggle := some 500, criticalHp := none } 600).presses = [] :=
  ⟨⟨rfl, by decide⟩,
   cooldown_lockout_no_refire.1 _ _ 600 500 rfl (by decide),
   cooldown_lockout_no_refire.2 _ _ _ _ 600 500 rfl (by decide) (by decide)⟩

/-- Claim C5 counterexample: with a mana ceiling of 0 the mana gate can
never pass (`0 < 100` and `mana_percent >= 0` always), so even a hero at
0% mana, with the ring castable, off trigger cooldown, and at 90% health,
gets `should_trigger = false` — the claimed scenario result `true` is
wrong. -/
theorem soulRing_zero_ceiling_counterexample :
    SoulRingState.shouldTrigger
      { available := true, slotKey := some 'z', canCast := true,
        heroManaPercent := 0, heroHealthPercent := 90, heroAlive := true,
        lastTriggered := none, slotItems := [] }
      { soulRing :=
          { enabled := true, minManaPercent := 0, minHealthPercent := 20,
            delayBeforeAbilityMs := 150, triggerCooldownMs := 1000,
            abilityKeys := ["q"], interceptItemKeys := true },
        keybindings := ⟨'z', 'x', 'c', 'v', 'b', 'n', '0'⟩ } 5000 = false := by
  decide

/-- Claim C5 (amended): `should_trigger` returns `true` iff the feature is
enabled, the item is available, castable and key-bound, the hero is alive,
the mana gate passes (ceiling ≥ 100 means always, otherwise mana strictly
below the ceiling — a ceiling of 0 therefore never passes), health is
strictly above the safety floor, and any recorded last trigger is at least
the cooldown ago; and in the scenario the hero at 0% mana (below a
positive ceiling) with the ring off cooldown and 90% health triggers. -/
theorem soulRing_shouldTrigger_characterization :
    (∀ (s : SoulRingState) (settings : Settings) (now : Nat),
      s.shouldTrigger settings now = true ↔
        settings.soulRing.enabled = true ∧ s.available = true ∧
        s.canCast = true ∧ s.slotKey.isSome = true ∧ s.heroAlive = true ∧
        (100 ≤ settings.soulRing.minManaPercent ∨
          s.heroManaPercent < settings.soulRing.minManaPercent) ∧
        settings.soulRing.minHealthPercent < s.heroHealthPercent ∧
        (∀ t, s.lastTriggered = some t →
          settings.soulRing.triggerCooldownMs ≤ now - t)) ∧
    SoulRingState.shouldTrigger
      { available := true, slotKey := some 'z', canCast := true,
        heroManaPercent := 0, heroHealthPercent := 90, heroAlive := true,
        lastTriggered := none, slotItems := [] }
      { soulRing :=
          { enabled := true, minManaPercent := 30, minHealthPercent := 20,
            delayBeforeAbilityMs := 150, triggerCooldownMs := 1000,
            abilityKeys := ["q"], interceptItemKeys := true },
        keybindings := ⟨'z', 'x', 'c', 'v', 'b', 'n', '0'⟩ } 5000 = true := by
  constructor
  · intro s settings now
    obtain ⟨av, sk, cc, mp, hp, al, lt, si⟩ := s
    simp only [SoulRingState.shouldTrigger]
    cases sk <;> cases lt <;> split_ifs <;> simp_all <;>
      first | omega | (intros; simp_all)
  · decide

/-- Claim C5 witness: the characterization applied at the amended
scenario input (0% mana, ceiling 30, 90% health, no prior trigger). -/
theorem soulRing_shouldTrigger_characterization_witness :
    SoulRingState.shouldTrigger
      { available := true, slotKey := some 'z', canCast := true,
        heroManaPercent := 0, heroHealthPercent := 90, heroAlive := true,
        lastTriggered := none, slotItems := [] }
      { soulRing :=
          { enabled := true, minManaPercent := 30, minHealthPercent := 20,
            delayBeforeAbilityMs := 150, triggerCooldownMs := 1000,
            abilityKeys := ["q"], interceptItemKeys := true },
        keybindings := ⟨'z', 'x', 'c', 'v', 'b', 'n', '0'⟩ } 5000 = true :=
  (soulRing_shouldTrigger_characterization.1 _ _ 5000).mpr
    (by refine ⟨rfl, rfl, rfl, rfl, rfl, ?_, by decide, ?_⟩
        · right; decide
        · intro t ht; simp at ht)

/-- Claim C2: while the hero is alive, the in-danger flag drops from
`true` to `false` only at an update where the detection signal (rapid HP
loss in the window, or low HP percent with positive loss) is off AND at
least `clear_delay` seconds have elapsed since `danger_start`, the
timestamp latched at the first detection of the episode. -/
theorem danger_clear_requires_delay :
    ∀ (tr : HpTracker) (cfg : DangerConfig) (hp hpPercent now : Nat),
      tr.dangerDetected = true →
      (dangerUpdate tr cfg true hp hpPercent now).1.dangerDetected = false →
      ∃ lastHp0 start, tr.lastHp = some lastHp0 ∧
        tr.dangerStartTime = some start ∧
        dangerSignal cfg lastHp0 hp hpPercent (now - tr.lastUpdate.getD 0)
          = false ∧
        (now - start) / 1000 ≥ cfg.clearDelaySeconds := by
  intro tr cfg hp hpPercent now hdet hres
  obtain ⟨lhp, lhpp, lupd, det, dst⟩ := tr
  simp only at hdet
  subst hdet
  simp only [dangerUpdate] at hres
  cases hen : cfg.enabled with
  | false => simp [hen] at hres
  | true =>
    simp only [hen, Bool.not_true, Bool.false_eq_true, if_false] at hres
    cases lhp with
    | none => simp at hres
    | some lastHp0 =>
      simp only at hres
      cases hsig : dangerSignal cfg lastHp0 hp hpPercent
          (now - Option.getD lupd 0) with
      | true => simp [hsig] at hres
      | false =>
        cases dst with
        | none => simp [hsig] at hres
        | some start =>
          simp [hsig] at hres
          split_ifs at hres with hdelay
          exact ⟨lastHp0, start, rfl, rfl, hsig, hdelay⟩

/-- Claim C2 witness: a hero in danger since t = 0 s, evaluated at
t = 6 s with stable HP and a 5 s clear delay, is cleared, and the theorem
recovers the latched episode start and the elapsed clear delay. -/
theorem danger_clear_requires_delay_witness :
    (({ lastHp := some 500, lastHpPercent := some 80, lastUpdate := some 5900,
        dangerDetected := true, dangerStartTime := some 0 } : HpTracker).dangerDetected
      = true ∧
     (dangerUpdate
        { lastHp := some 500, lastHpPercent := some 80, lastUpdate := some 5900,
          dangerDetected := true, dangerStartTime := some 0 }
        { enabled := true, hpThresholdPercent := 30, rapidLossHp := 60,
          timeWindowMs := 500, clearDelaySeconds := 5 }
        true 500 80 6000).1.dangerDetected = false) ∧
    (∃ lastHp0 start,
      ({ lastHp := some 500, lastHpPercent := some 80, lastUpdate := some 5900,
         dangerDetected := true, dangerStartTime := some 0 } : HpTracker).lastHp
        = some lastHp0 ∧
      ({ lastHp := some 500, lastHpPercent := some 80, lastUpdate := some 5900,
         dangerDetected := true, dangerStartTime := some 0 } : HpTracker).dangerStartTime
        = some start ∧
      dangerSignal
        { enabled := true, hpThresholdPercent := 30, rapidLossHp := 60,
          timeWindowMs := 500, clearDelaySeconds := 5 }
        lastHp0 500 80
        (6000 - ({ lastHp := some 500, lastHpPercent := some 80,
                   lastUpdate := some 5900, dangerDetected := true,
                   dangerStartTime := some 0 } : HpTracker).lastUpdate.getD 0)
        = false ∧
      (6000 - start) / 1000 ≥ 5) :=
  ⟨⟨rfl, by decide⟩,
   danger_clear_requires_delay _ _ 500 80 6000 rfl (by decide)⟩

/-- Claim C3: the shipped code never writes `Some(..)` into
`ARMLET_CRITICAL_HP` — the only assignments are the two resets to `None` —
so starting from the initial state (both cells `None`), no sequence of
`armlet_toggle` evaluations ever reaches the critical-override branch:
its claimed emergency double-press is dead code. -/
theorem armlet_critical_override_unreachable :
    ∀ (settings : Settings) (cfg : ArmletConfig) (evs : List (GEvent × Nat)),
      armletRunFired settings cfg ArmletState.initial evs = false := by
  intro settings cfg evs
  suffices h : ∀ (evs : List (GEvent × Nat)) (st : ArmletState),
      st.criticalHp = none → armletRunFired settings cfg st evs = false by
    exact h evs ArmletState.initial rfl
  intro evs
  induction evs with
  | nil => intro st _; rfl
  | cons p rest ih =>
    intro st hcrit
    obtain ⟨ev, now⟩ := p
    have hstep : (armletToggle ev settings cfg st now).overrideFired = false ∧
        (armletToggle ev settings cfg st now).state.criticalHp = none := by
      unfold armletToggle armletToggleMain
      cases hfind : (ev.items.find? fun p => p.2 == "item_armlet").map (·.1) with
      | none => simp [hfind, hcrit]
      | some slot =>
        simp only [hfind]
        cases hkey : settings.getKeyForSlot slot with
        | none => simp [hkey, hcrit]
        | some key =>
          simp only [hkey]
          cases halive : ev.heroAlive with
          | false => simp [hcrit]
          | true => simp only [hcrit]; split_ifs <;> simp_all
    simp only [armletRunFired, hstep.1, Bool.false_or]
    exact ih _ hstep.2

/-- While awaiting verification with at most 1550 ms elapsed, the
verification sub-machine itself is a strict no-op. -/
theorem comboStepVerify_still_waiting :
    ∀ (cached : CachedGsi) (st : TinkerState) (now t : Nat),
      st.awaitingRearmVerify = true → st.rearmStarted = some t →
      now - t ≤ 1550 → comboStepVerify cached st now = (st, []) := by
  intro cached st now t h1 h2 h3
  unfold comboStepVerify
  rw [h1, h2]
  simp only [if_true]
  rw [if_neg]
  omega

/-- Claim C6: while the Tinker combo loop is awaiting rearm verification
and less than the fixed minimum channel time (1550 ms) has elapsed since
the rearm was issued, a combo step casts nothing and leaves the
verification state (awaiting flag, rearm start time, pre-rearm laser
cooldown) unchanged — verification never concludes early. -/
theorem tinker_verify_waits_min_channel_time :
    ∀ (cache : Option CachedGsi) (st : TinkerState) (now t : Nat),
      st.awaitingRearmVerify = true → st.rearmStarted = some t →
      now - t ≤ 1550 →
      (comboStep cache st now).2 = [] ∧
      (comboStep cache st now).1.awaitingRearmVerify = true ∧
      (comboStep cache st now).1.rearmStarted = some t ∧
      (comboStep cache st now).1.laserCdBeforeRearm = st.laserCdBeforeRearm := by
  intro cache st now t hawait hstart helapsed
  cases cache with
  | none => exact ⟨rfl, hawait, hstart, rfl⟩
  | some cached =>
    dsimp only [comboStep]
    split_ifs with g1 g2 g3 g4
    · exact ⟨rfl, hawait, hstart, rfl⟩
    · exact ⟨rfl, hawait, hstart, rfl⟩
    · exact ⟨rfl, hawait, hstart, rfl⟩
    · exact ⟨rfl, hawait, hstart, rfl⟩
    · cases hrca : st.rearmCompletedAt with
      | some rearmDone =>
        simp only [hrca]
        split_ifs with g5
        · exact ⟨rfl, hawait, hstart, rfl⟩
        · rw [comboStepVerify_still_waiting cached
            { st with rearmCompletedAt := none } now t hawait hstart helapsed]
          exact ⟨rfl, hawait, hstart, rfl⟩
      | none =>
        simp only [hrca]
        rw [comboStepVerify_still_waiting cached st now t hawait hstart
          helapsed]
        exact ⟨rfl, hawait, hstart, rfl⟩

/-- Claim C6 witness: a fresh cache and a state that issued the rearm
1000 ms ago: the step is a no-op on the verification state. -/
theorem tinker_verify_waits_min_channel_time_witness :
    (({ comboActive := true, rearmStarted := some 1000,
        laserCdBeforeRearm := 14, awaitingRearmVerify := true,
        lastCast := some 1000, loopRunning := true,
        rearmCompletedAt := none } : TinkerState).awaitingRearmVerify = true ∧
     (2000 : Nat) - 1000 ≤ 1550) ∧
    (comboStep
      (some
        { lastUpdate := 1900, isAlive := true, laserReady := false,
          laserCooldown := 14, warpFlareReady := false, matrixReady := true,
          items := [], healthPercent := 80,
          snapshot :=
            { enabled := true, comboPriority := ["laser", "warp_flare"],
              laserKey := 'q', matrixKey := 'w', warpFlareKey := 'e',
              rearmKey := 'r', autoMatrixEnabled := true,
              autoMatrixHpThreshold := 50, rearmRetryOnInterrupt := true } })
      { comboActive := true, rearmStarted := some 1000,
        laserCdBeforeRearm := 14, awaitingRearmVerify := true,
        lastCast := some 1000, loopRunning := true,
        rearmCompletedAt := none } 2000).2 = [] ∧
    (comboStep
      (some
        { lastUpdate := 1900, isAlive := true, laserReady := false,
          laserCooldown := 14, warpFlareReady := false, matrixReady := true,
          items := [], healthPercent := 80,
          snapshot :=
            { enabled := true, comboPriority := ["laser", "warp_flare"],
              laserKey := 'q', matrixKey := 'w', warpFlareKey := 'e',
              rearmKey := 'r', autoMatrixEnabled := true,
              autoMatrixHpThreshold := 50, rearmRetryOnInterrupt := true } })
      { comboActive := true, rearmStarted := some 1000,
        laserCdBeforeRearm := 14, awaitingRearmVerify := true,
        lastCast := some 1000, loopRunning := true,
        rearmCompletedAt := none } 2000).1.awaitingRearmVerify = true :=
  ⟨⟨rfl, by decide⟩,
   (tinker_verify_waits_min_channel_time _ _ 2000 1000 rfl rfl (by decide)).1,
   (tinker_verify_waits_min_channel_time _ _ 2000 1000 rfl rfl (by decide)).2.1⟩

/-- Claim C7 counterexample: with beat interval 100 ms and correction
−250 ms every 2 beats, the beat-2 deadline (clamped at the anchor) falls
strictly before the beat-1 deadline — the schedule is not non-decreasing
in N for every configuration. -/
theorem largo_beat_deadline_not_monotone :
    beatDeadline 0 100 (-250) 2 2 < beatDeadline 0 100 (-250) 2 1 := by
  decide

/-- Claim C7 (amended): the code's beat deadline equals the claim's
closed-form `anchor + interval*N + correction*floor(N / every)` clamped at
the anchor (hence deterministic in the anchor, interval, and correction
schedule alone), and it is non-decreasing in N provided one interval plus
one correction is non-negative (the default configuration satisfies this;
a correction below `-interval` can make a clamped deadline step
backwards). -/
theorem largo_beat_deadline_formula_monotone :
    (∀ (anchor intervalMs : Nat) (correctionMs : Int) (everyN n : Nat),
      beatDeadline anchor intervalMs correctionMs everyN n =
        beatDeadlineSpec anchor intervalMs correctionMs everyN n) ∧
    (∀ (anchor intervalMs : Nat) (correctionMs : Int) (everyN : Nat),
      0 ≤ (intervalMs : Int) + correctionMs →
      ∀ n m : Nat, n ≤ m →
        beatDeadline anchor intervalMs correctionMs everyN n ≤
          beatDeadline anchor intervalMs correctionMs everyN m) := by
  constructor
  · intro anchor I C E n
    unfold beatDeadline beatTotalMs beatDeadlineSpec
    split_ifs with hE
    · have hk : 0 ≤ (I : Int) * (n : Int) := by positivity
      generalize (I : Int) * (n : Int) = k at hk ⊢
      generalize C * ((n / E : Nat) : Int) = c
      omega
    · have hE0 : E = 0 := by omega
      subst hE0
      rw [Nat.div_zero]
      have hk : 0 ≤ (I : Int) * (n : Int) := by positivity
      generalize (I : Int) * (n : Int) = k at hk ⊢
      simp only [Int.natCast_zero, Int.mul_zero, Int.add_zero]
      omega
  · intro anchor I C E hIC n m hnm
    have hI : (0 : Int) ≤ (I : Int) := by positivity
    have hstep : ∀ j : Nat,
        beatTotalMs I C E j ≤ beatTotalMs I C E (j + 1) := by
      intro j
      unfold beatTotalMs
      split_ifs with hE
      · have hdiv1 : j / E ≤ (j + 1) / E :=
          Nat.div_le_div_right (Nat.le_succ j)
        have hdiv2 : (j + 1) / E ≤ j / E + 1 := by
          have h1 : j + 1 ≤ j + E := by omega
          have h2 := Nat.div_le_div_right (c := E) h1
          rwa [Nat.add_div_right _ hE] at h2
        have hd : (j + 1) / E = j / E ∨ (j + 1) / E = j / E + 1 := by omega
        rcases hd with hd | hd <;> rw [hd] <;> apply Int.toNat_le_toNat <;>
          push_cast <;> ring_nf <;> nlinarith
      · apply Int.toNat_le_toNat
        push_cast
        nlinarith
    have hchain : ∀ k : Nat,
        beatTotalMs I C E n ≤ beatTotalMs I C E (n + k) := by
      intro k
      induction k with
      | zero => exact le_refl _
      | succ k ih => exact le_trans ih (hstep (n + k))
    have hm : m = n + (m - n) := by omega
    unfold beatDeadline
    have := hchain (m - n)
    rw [← hm] at this
    omega

/-- Claim C7 witness: default configuration (995 ms interval, −10 ms
correction every 5 beats): deadlines of beats 1 and 7 are in order, and
the code deadline agrees with the closed form. -/
theorem largo_beat_deadline_formula_monotone_witness :
    (0 ≤ (995 : Int) + (-10) ∧ (1 : Nat) ≤ 7) ∧
    beatDeadline 0 995 (-10) 5 1 ≤ beatDeadline 0 995 (-10) 5 7 ∧
    beatDeadline 0 995 (-10) 5 7 = beatDeadlineSpec 0 995 (-10) 5 7 :=
  ⟨⟨by decide, by decide⟩,
   largo_beat_deadline_formula_monotone.2 0 995 (-10) 5 (by decide) 1 7
     (by decide),
   largo_beat_deadline_formula_monotone.1 0 995 (-10) 5 7⟩

/-- Every batch drained by the reorganizer loop has length
`min remaining k`: the chunk lengths follow the spec-form size plan. -/
theorem batchChunks_sizes {α : Type} (k : Nat) :
    ∀ (fuel : Nat) (items : List α),
      (batchChunks k fuel items).map List.length =
        sizePlan k fuel items.length := by
  intro fuel
  induction fuel with
  | zero => intro items; simp [batchChunks, sizePlan]
  | succ fuel ih =>
    intro items
    cases items with
    | nil => simp [batchChunks, sizePlan]
    | cons a tail =>
      simp only [batchChunks, List.map_cons, sizePlan, List.length_cons]
      rw [ih, List.length_take, List.length_drop]
      simp only [List.length_cons]
      congr 1
      omega

/-- Every event of a batch is a drag: no guard toggles and no bottle use
happen inside a batch. -/
theorem chunkEvents_guard_free :
    ∀ (chunk empties : List BItemSlot) (e : BEvent),
      e ∈ chunkEvents chunk empties → e.isGuard = false ∧ e.isUse = false := by
  intro chunk empties e he
  simp only [chunkEvents, List.mem_append, List.mem_map] at he
  rcases he with ⟨p, _, rfl⟩ | ⟨p, _, rfl⟩ <;> exact ⟨rfl, rfl⟩

/-- Claim C8: the single-flight guard blocks re-triggering while an
operation is in progress; every batch has size
`min (remaining stat items) (empty destination slots)`; and the trace of a
non-degenerate execution is `guardOn :: mid ++ [guardOff]` where `mid`
contains no guard event and contains the bottle use. -/
theorem bottle_batches_and_guard :
    (∀ (s : BottleState) (cfg : BottleConfig) (now : Nat),
      s.inProgress = true → s.shouldTrigger cfg now = false) ∧
    (∀ (stat empties : List BItemSlot),
      (batchChunks empties.length stat.length stat).map List.length =
        sizePlan empties.length stat.length stat.length) ∧
    (∀ (stat empties : List BItemSlot) (key : Char) (restore : Bool),
      stat ≠ [] → empties ≠ [] →
      ∃ mid, execBottleEvents stat empties key restore =
          BEvent.guardOn :: mid ++ [BEvent.guardOff] ∧
        (∀ e ∈ mid, e.isGuard = false) ∧
        BEvent.useBottle key ∈ mid) := by
  refine ⟨?_, ?_, ?_⟩
  · intro s cfg now h
    obtain ⟨ba, bsi, bsk, bcc, bch, gt, ha, si, es, lt, ip⟩ := s
    simp only at h
    subst h
    simp only [BottleState.shouldTrigger]
    cases lt <;> split_ifs <;> simp_all
  · intro stat empties
    exact batchChunks_sizes empties.length stat.length stat
  · intro stat empties key restore hs he
    have h1 : 0 < stat.length := List.length_pos.mpr hs
    have h2 : 0 < empties.length := List.length_pos.mpr he
    refine ⟨[BEvent.markTriggered] ++
      ((batchChunks empties.length stat.length stat).map
        fun chunk => chunkEvents chunk empties).flatten ++
      [BEvent.useBottle key] ++
      (if restore then [BEvent.restoreCursor] else []), ?_, ?_, ?_⟩
    · unfold execBottleEvents
      rw [if_neg (by omega)]
      simp [List.append_assoc]
    · intro e hein
      simp only [List.mem_append, List.mem_cons, List.not_mem_nil, or_false,
        List.mem_flatten, List.mem_map] at hein
      rcases hein with ((rfl | ⟨l, ⟨chunk, _, rfl⟩, hel⟩) | rfl) | hrest
      · rfl
      · exact (chunkEvents_guard_free chunk empties e hel).1
      · rfl
      · cases restore with
        | true => simp at hrest; subst hrest; rfl
        | false => simp at hrest
    · simp

/-- Claim C8 witness: one stat item and one empty slot: the trace shape
and the batch sizes at a concrete input. -/
theorem bottle_batches_and_guard_witness :
    (([⟨0, "item_branches", ⟨100, 200⟩⟩] : List BItemSlot) ≠ [] ∧
     ([⟨1, "empty", ⟨300, 400⟩⟩] : List BItemSlot) ≠ []) ∧
    (∃ mid,
      execBottleEvents [⟨0, "item_branches", ⟨100, 200⟩⟩]
          [⟨1, "empty", ⟨300, 400⟩⟩] 'z' false =
        BEvent.guardOn :: mid ++ [BEvent.guardOff] ∧
      (∀ e ∈ mid, e.isGuard = false) ∧
      BEvent.useBottle 'z' ∈ mid) :=
  ⟨⟨by decide, by decide⟩,
   bottle_batches_and_guard.2.2 [⟨0, "item_branches", ⟨100, 200⟩⟩]
     [⟨1, "empty", ⟨300, 400⟩⟩] 'z' false (by decide) (by decide)⟩

/-- Claim C4 counterexample: with one stat item and no empty destination
slots, the execution performs zero drags but also does NOT use the bottle:
it releases the guard and returns early, contradicting the claim that the
target item is still used by the operation. -/
theorem bottle_empty_slots_counterexample :
    ((execBottleEvents [⟨0, "item_branches", ⟨100, 200⟩⟩] [] 'z' true).countP
        (·.isDrag) = 0) ∧
    (∀ e ∈ execBottleEvents [⟨0, "item_branches", ⟨100, 200⟩⟩] [] 'z' true,
      e.isUse = false) := by
  decide

/-- Claim C4 (amended): with no empty destination slots the operation is
never even eligible — `should_trigger` returns `false` (so the intercepted
key would pass through and the bottle would be used by the player's own
press) — and a forced execution performs zero drags and returns after just
setting and clearing the guard, without using the bottle. -/
theorem bottle_empty_slots_zero_drags :
    (∀ (s : BottleState) (cfg : BottleConfig) (now : Nat),
      s.emptyStashSlots = [] → s.shouldTrigger cfg now = false) ∧
    (∀ (stat : List BItemSlot) (key : Char) (restore : Bool),
      execBottleEvents stat [] key restore =
        [BEvent.guardOn, BEvent.markTriggered, BEvent.guardOff]) := by
  constructor
  · intro s cfg now h
    obtain ⟨ba, bsi, bsk, bcc, bch, gt, ha, si, es, lt, ip⟩ := s
    simp only at h
    subst h
    simp only [BottleState.shouldTrigger]
    cases lt <;> split_ifs <;> simp_all
  · intro stat key restore
    unfold execBottleEvents
    simp

/-- Claim C4 witness: a concrete otherwise-eligible state with no empty
slots does not trigger, and its forced execution is the degenerate
guard-only trace. -/
theorem bottle_empty_slots_zero_drags_witness :
    (({ bottleAvailable := true, bottleSlotIndex := some 2,
        bottleSlotKey := some 'c', bottleCanCast := true, bottleCharges := 3,
        gameTime := 120, heroAlive := true,
        statItems := [⟨0, "item_branches", ⟨100, 200⟩⟩],
        emptyStashSlots := [], lastTriggered := none,
        inProgress := false } : BottleState).emptyStashSlots = []) ∧
    BottleState.shouldTrigger
      { bottleAvailable := true, bottleSlotIndex := some 2,
        bottleSlotKey := some 'c', bottleCanCast := true, bottleCharges := 3,
        gameTime := 120, heroAlive := true,
        statItems := [⟨0, "item_branches", ⟨100, 200⟩⟩],
        emptyStashSlots := [], lastTriggered := none, inProgress := false }
      { enabled := true, maxGameTimeSeconds := 600,
        triggerCooldownMs := 5000, restoreMousePosition := true } 10000
      = false ∧
    execBottleEvents [⟨0, "item_branches", ⟨100, 200⟩⟩] [] 'c' true =
      [BEvent.guardOn, BEvent.markTriggered, BEvent.guardOff] :=
  ⟨rfl,
   bottle_empty_slots_zero_drags.1 _ _ 10000 rfl,
   bottle_empty_slots_zero_drags.2 [⟨0, "item_branches", ⟨100, 200⟩⟩] 'c' true⟩

end DotaScripts
